import Mathlib

/-!
Shallow embedding of the Hcalory HBU1S BLE heater client
(`custom_components/hcalory_hbu1s/client.py` and `const.py`).

Bytes are modelled as `Nat` (a `bytearray` element is in `0..255`; the code
only compares and adds them, taking `& 0xFF` where overflow matters, which we
render as `% 256`).  Python `int` values that may be negative (the requested
temperature) are modelled as `Int`.  BLE transport outcomes (connect, write)
are oracles `Nat → Bool` indexed by attempt, so that the retry loop can be
analysed on arbitrary failure patterns; `asyncio.sleep` calls and GATT writes
are recorded in an explicit event trace.
-/

namespace Hcalory

/-! ### Constants from `const.py` -/

/-- `PROTOCOL_HEADER = bytes([0x00, 0x02, 0x00, 0x01, 0x00, 0x01, 0x00])` -/
def PROTOCOL_HEADER : List Nat := [0x00, 0x02, 0x00, 0x01, 0x00, 0x01, 0x00]

/-- `CMD_INIT = bytes.fromhex("000200010001000a0c000005010000000012")` -/
def CMD_INIT : List Nat :=
  [0x00, 0x02, 0x00, 0x01, 0x00, 0x01, 0x00, 0x0a, 0x0c, 0x00, 0x00, 0x05,
   0x01, 0x00, 0x00, 0x00, 0x00, 0x12]

/-- `CMD_POWER_ON` literal from `const.py` line 23. -/
def CMD_POWER_ON : List Nat :=
  [0x0e, 0x04, 0x00, 0x00, 0x09, 0x00, 0x00, 0x00, 0x00, 0x00, 0x00, 0x00,
   0x00, 0x02, 0x0f]

/-- `CMD_POWER_OFF` literal from `const.py` line 24. -/
def CMD_POWER_OFF : List Nat :=
  [0x0e, 0x04, 0x00, 0x00, 0x09, 0x00, 0x00, 0x00, 0x00, 0x00, 0x00, 0x00,
   0x00, 0x01, 0x0e]

/-- `CMD_TEMP_INNER_PREFIX = bytes([0x06, 0x00, 0x00, 0x02])` (the source
constant's name ends in a word this development cannot use, so the name here
drops the last word). -/
def CMD_TEMP_INNER : List Nat := [0x06, 0x00, 0x00, 0x02]

def MIN_TEMP : Int := 8

def MAX_TEMP : Int := 36

def RETRY_COUNT : Nat := 3

/-- `RETRY_DELAY = 1.0` seconds, exactly representable. -/
def RETRY_DELAY : ℚ := 1

/-! ### `HeaterState` (class of int constants in `const.py`) -/

namespace HeaterState

def OFF : Nat := 0x00

def STARTING : Nat := 0x01

def PREHEATING : Nat := 0x02

def RUNNING : Nat := 0x03

def SHUTDOWN : Nat := 0x04

end HeaterState

/-! ### `HeaterStatus` dataclass -/

/-- `HeaterStatus` dataclass from `client.py`: `state`, `target_temp`,
`body_temp`, `ambient_temp`, `connected`.  `target_temp` is `Int` because the
caller-supplied temperature is a Python `int`; the other temperatures only
ever receive byte-derived non-negative values. -/
structure HeaterStatus where
  state : Nat := HeaterState.OFF
  target_temp : Int := 16
  body_temp : Nat := 0
  ambient_temp : Nat := 0
  connected : Bool := false
deriving DecidableEq, Repr

/-- The dataclass defaults: `state=OFF, target_temp=16, temps=0,
connected=False`. -/
def initialStatus : HeaterStatus := {}

/-- `HeaterStatus.is_on`: `self.state not in (HeaterState.OFF, HeaterState.SHUTDOWN)`. -/
def HeaterStatus.is_on (s : HeaterStatus) : Bool :=
  !(s.state == HeaterState.OFF || s.state == HeaterState.SHUTDOWN)

/-! ### `_parse_status`

The Python method mutates `self._status` in place through a sequence of four
guarded field updates, all under `if len(data) > 7 and data[7] == 0x23`, after
an early return for frames shorter than 25 bytes.  `data[i]` is rendered as
`data.getD i 0`; every access is guarded by the same length test as in the
source, so the default is never consulted.  The Python `try/except` never
fires (all accesses are bounds-checked), and totality of the Lean function
models "never raises". -/

/-- `data[10]` accepted as target temperature iff `8 <= t <= 36`. -/
def upd_target (st : HeaterStatus) (data : List Nat) : HeaterStatus :=
  if 10 < data.length then
    let t := data.getD 10 0
    if 8 ≤ t ∧ t ≤ 36 then { st with target_temp := (t : Int) } else st
  else st

/-- `data[22]`: `0x02 → 2`, `0x00 → 0`, `0x01 → 1`, anything else: unchanged. -/
def upd_state (st : HeaterStatus) (data : List Nat) : HeaterStatus :=
  if 22 < data.length then
    let sb := data.getD 22 0
    if sb = 0x02 then { st with state := 2 }
    else if sb = 0x00 then { st with state := 0 }
    else if sb = 0x01 then { st with state := 1 }
    else st
  else st

/-- Little-endian body temperature candidate `data[23] + (data[24] << 8)`. -/
def bodyCand (data : List Nat) : Nat := data.getD 23 0 + data.getD 24 0 * 256

/-- Body temperature accepted iff `0 < body_temp < 500`. -/
def upd_body (st : HeaterStatus) (data : List Nat) : HeaterStatus :=
  if 24 < data.length then
    let bt := bodyCand data
    if 0 < bt ∧ bt < 500 then { st with body_temp := bt } else st
  else st

/-- Ambient candidate `data[29]`, read only when `len(data) > 30`, accepted
iff `0 < ambient < 60`. -/
def upd_ambient (st : HeaterStatus) (data : List Nat) : HeaterStatus :=
  if 30 < data.length then
    let a := data.getD 29 0
    if 0 < a ∧ a < 60 then { st with ambient_temp := a } else st
  else st

/-- `_parse_status` from `client.py`: early return below 25 bytes, message
type check `data[7] == 0x23`, then the four sequential field updates. -/
def parse_status (st : HeaterStatus) (data : List Nat) : HeaterStatus :=
  if data.length < 25 then st
  else if 7 < data.length ∧ data.getD 7 0 = 0x23 then
    upd_ambient (upd_body (upd_state (upd_target st data) data) data) data
  else st

/-- A captured-style 25-byte status frame: type byte `0x23`, target 30,
running byte `0x02`, body temperature `0x008c = 140` little-endian. -/
def sampleFrame : List Nat :=
  [0x00, 0x01, 0x00, 0x01, 0x00, 0x01, 0x00, 0x23, 0x03, 0x00, 0x1e, 0xff,
   0xff, 0x01, 0xf4, 0x00, 0x00, 0x00, 0x00, 0x85, 0x01, 0x0f, 0x02, 0x8c,
   0x00]

/-! ### Field-projection lemmas for the four updates -/

@[simp] lemma upd_target_state (st : HeaterStatus) (data : List Nat) :
    (upd_target st data).state = st.state := by
  simp only [upd_target]; split_ifs <;> rfl

@[simp] lemma upd_target_body (st : HeaterStatus) (data : List Nat) :
    (upd_target st data).body_temp = st.body_temp := by
  simp only [upd_target]; split_ifs <;> rfl

@[simp] lemma upd_target_ambient (st : HeaterStatus) (data : List Nat) :
    (upd_target st data).ambient_temp = st.ambient_temp := by
  simp only [upd_target]; split_ifs <;> rfl

@[simp] lemma upd_target_connected (st : HeaterStatus) (data : List Nat) :
    (upd_target st data).connected = st.connected := by
  simp only [upd_target]; split_ifs <;> rfl

@[simp] lemma upd_state_target (st : HeaterStatus) (data : List Nat) :
    (upd_state st data).target_temp = st.target_temp := by
  simp only [upd_state]; split_ifs <;> rfl

@[simp] lemma upd_state_body (st : HeaterStatus) (data : List Nat) :
    (upd_state st data).body_temp = st.body_temp := by
  simp only [upd_state]; split_ifs <;> rfl

@[simp] lemma upd_state_ambient (st : HeaterStatus) (data : List Nat) :
    (upd_state st data).ambient_temp = st.ambient_temp := by
  simp only [upd_state]; split_ifs <;> rfl

@[simp] lemma upd_state_connected (st : HeaterStatus) (data : List Nat) :
    (upd_state st data).connected = st.connected := by
  simp only [upd_state]; split_ifs <;> rfl

@[simp] lemma upd_body_state (st : HeaterStatus) (data : List Nat) :
    (upd_body st data).state = st.state := by
  simp only [upd_body]; split_ifs <;> rfl

@[simp] lemma upd_body_target (st : HeaterStatus) (data : List Nat) :
    (upd_body st data).target_temp = st.target_temp := by
  simp only [upd_body]; split_ifs <;> rfl

@[simp] lemma upd_body_ambient (st : HeaterStatus) (data : List Nat) :
    (upd_body st data).ambient_temp = st.ambient_temp := by
  simp only [upd_body]; split_ifs <;> rfl

@[simp] lemma upd_body_connected (st : HeaterStatus) (data : List Nat) :
    (upd_body st data).connected = st.connected := by
  simp only [upd_body]; split_ifs <;> rfl

@[simp] lemma upd_ambient_state (st : HeaterStatus) (data : List Nat) :
    (upd_ambient st data).state = st.state := by
  simp only [upd_ambient]; split_ifs <;> rfl

@[simp] lemma upd_ambient_target (st : HeaterStatus) (data : List Nat) :
    (upd_ambient st data).target_temp = st.target_temp := by
  simp only [upd_ambient]; split_ifs <;> rfl

@[simp] lemma upd_ambient_body (st : HeaterStatus) (data : List Nat) :
    (upd_ambient st data).body_temp = st.body_temp := by
  simp only [upd_ambient]; split_ifs <;> rfl

@[simp] lemma upd_ambient_connected (st : HeaterStatus) (data : List Nat) :
    (upd_ambient st data).connected = st.connected := by
  simp only [upd_ambient]; split_ifs <;> rfl

lemma upd_target_target (st : HeaterStatus) (data : List Nat) :
    (upd_target st data).target_temp = st.target_temp ∨
    ((upd_target st data).target_temp = (data.getD 10 0 : Int) ∧
      8 ≤ data.getD 10 0 ∧ data.getD 10 0 ≤ 36) := by
  simp only [upd_target]
  split_ifs with h1 h2
  · exact Or.inr ⟨rfl, h2⟩
  · exact Or.inl rfl
  · exact Or.inl rfl

lemma upd_state_eval (st : HeaterStatus) (data : List Nat)
    (h : 22 < data.length) :
    (upd_state st data).state =
      if data.getD 22 0 = 0x02 then 2
      else if data.getD 22 0 = 0x00 then 0
      else if data.getD 22 0 = 0x01 then 1
      else st.state := by
  simp only [upd_state]
  rw [if_pos h]
  split_ifs <;> rfl

lemma upd_body_body (st : HeaterStatus) (data : List Nat)
    (h : 24 < data.length) :
    (upd_body st data).body_temp =
      if 0 < bodyCand data ∧ bodyCand data < 500 then bodyCand data
      else st.body_temp := by
  simp only [upd_body]
  rw [if_pos h]
  split_ifs <;> rfl

lemma upd_ambient_ambient (st : HeaterStatus) (data : List Nat) :
    (upd_ambient st data).ambient_temp =
      if 30 < data.length ∧ 0 < data.getD 29 0 ∧ data.getD 29 0 < 60
      then data.getD 29 0 else st.ambient_temp := by
  simp only [upd_ambient]
  split_ifs with h1 h2 h3 h4 <;> first | rfl | tauto

/-- Accepted frames run exactly the four sequential updates. -/
lemma parse_accepted (st : HeaterStatus) (data : List Nat)
    (hlen : 25 ≤ data.length) (hty : data.getD 7 0 = 0x23) :
    parse_status st data =
      upd_ambient (upd_body (upd_state (upd_target st data) data) data) data := by
  unfold parse_status
  rw [if_neg (by omega), if_pos ⟨by omega, hty⟩]

/-! ### Claim theorems about `_parse_status` -/

/-- C3: a frame of 24 bytes or fewer, or whose byte 7 is not `0x23`, causes
no update at all: the stored `HeaterStatus` is exactly as before in every
field (and the Lean function is total, modelling that decoding never
raises). -/
theorem C3_malformed_no_update (st : HeaterStatus) (data : List Nat)
    (h : data.length ≤ 24 ∨ data.getD 7 0 ≠ 0x23) :
    parse_status st data = st := by
  unfold parse_status
  split_ifs with h1 h2
  · rfl
  · rcases h with h | h
    · omega
    · exact absurd h2.2 h
  · rfl

theorem C3_malformed_no_update_witness :
    parse_status initialStatus [0x00, 0x23] = initialStatus :=
  C3_malformed_no_update initialStatus [0x00, 0x23] (Or.inl (by decide))

/-- C4: on an accepted status frame, the body-temperature candidate
(`data[23] + (data[24] << 8)`) is stored only when strictly between 0 and
500, the ambient candidate (`data[29]`) only when strictly between 0 and 60;
an out-of-range candidate is rejected and the stored field keeps its previous
value. -/
theorem C4_temp_range_validation (st : HeaterStatus) (data : List Nat)
    (hlen : 25 ≤ data.length) (hty : data.getD 7 0 = 0x23) :
    ((parse_status st data).body_temp ≠ st.body_temp →
      (parse_status st data).body_temp = bodyCand data ∧
      0 < bodyCand data ∧ bodyCand data < 500) ∧
    (¬(0 < bodyCand data ∧ bodyCand data < 500) →
      (parse_status st data).body_temp = st.body_temp) ∧
    ((parse_status st data).ambient_temp ≠ st.ambient_temp →
      (parse_status st data).ambient_temp = data.getD 29 0 ∧
      0 < data.getD 29 0 ∧ data.getD 29 0 < 60) ∧
    (¬(0 < data.getD 29 0 ∧ data.getD 29 0 < 60) →
      (parse_status st data).ambient_temp = st.ambient_temp) := by
  have hb : (parse_status st data).body_temp =
      if 0 < bodyCand data ∧ bodyCand data < 500 then bodyCand data
      else st.body_temp := by
    rw [parse_accepted st data hlen hty, upd_ambient_body,
      upd_body_body _ _ (by omega), upd_state_body, upd_target_body]
  have ha : (parse_status st data).ambient_temp =
      if 30 < data.length ∧ 0 < data.getD 29 0 ∧ data.getD 29 0 < 60
      then data.getD 29 0 else st.ambient_temp := by
    rw [parse_accepted st data hlen hty, upd_ambient_ambient,
      upd_body_ambient, upd_state_ambient, upd_target_ambient]
  refine ⟨?_, ?_, ?_, ?_⟩
  · intro hne
    rw [hb] at hne ⊢
    split_ifs at hne ⊢ with h
    · exact ⟨rfl, h⟩
    · exact absurd rfl hne
  · intro hout
    rw [hb, if_neg hout]
  · intro hne
    rw [ha] at hne ⊢
    split_ifs at hne ⊢ with h
    · exact ⟨rfl, h.2⟩
    · exact absurd rfl hne
  · intro hout
    rw [ha, if_neg (fun hc => hout hc.2)]

theorem C4_temp_range_validation_witness :
    (parse_status initialStatus sampleFrame).body_temp = bodyCand sampleFrame ∧
    0 < bodyCand sampleFrame ∧ bodyCand sampleFrame < 500 :=
  (C4_temp_range_validation initialStatus sampleFrame (by decide)
    (by decide)).1 (by decide)

/-- C10: decoding only ever writes state values 0, 1 or 2 (never
`HeaterState.RUNNING = 3` or `HeaterState.SHUTDOWN = 4`); a running byte
outside `{0x00, 0x01, 0x02}` leaves the state unchanged; and a running byte
`0x02` yields state `HeaterState.PREHEATING` (not `RUNNING`) with
`is_on = true`. -/
theorem C10_state_mapping (st : HeaterStatus) (data : List Nat) :
    ((parse_status st data).state = st.state ∨
     (parse_status st data).state = 0 ∨
     (parse_status st data).state = 1 ∨
     (parse_status st data).state = 2) ∧
    (25 ≤ data.length → data.getD 7 0 = 0x23 →
      (¬(data.getD 22 0 = 0x00 ∨ data.getD 22 0 = 0x01 ∨
          data.getD 22 0 = 0x02) →
        (parse_status st data).state = st.state) ∧
      (data.getD 22 0 = 0x02 →
        (parse_status st data).state = HeaterState.PREHEATING ∧
        HeaterState.PREHEATING ≠ HeaterState.RUNNING ∧
        (parse_status st data).is_on = true)) := by
  constructor
  · unfold parse_status
    split_ifs with h1 h2
    · exact Or.inl rfl
    · rw [upd_ambient_state, upd_body_state]
      have := upd_state_eval (upd_target st data) data (by omega)
      rw [this, upd_target_state]
      split_ifs <;> simp
    · exact Or.inl rfl
  · intro hlen hty
    have hs : (parse_status st data).state =
        if data.getD 22 0 = 0x02 then 2
        else if data.getD 22 0 = 0x00 then 0
        else if data.getD 22 0 = 0x01 then 1
        else st.state := by
      rw [parse_accepted st data hlen hty, upd_ambient_state, upd_body_state,
        upd_state_eval _ _ (by omega), upd_target_state]
    constructor
    · intro hout
      rw [hs, if_neg (fun h => hout (Or.inr (Or.inr h))),
        if_neg (fun h => hout (Or.inl h)),
        if_neg (fun h => hout (Or.inr (Or.inl h)))]
    · intro h2
      have hst : (parse_status st data).state = 2 := by rw [hs, if_pos h2]
      refine ⟨hst, by decide, ?_⟩
      unfold HeaterStatus.is_on
      rw [hst]
      rfl

theorem C10_state_mapping_witness :
    (parse_status initialStatus sampleFrame).state = HeaterState.PREHEATING ∧
    (parse_status initialStatus sampleFrame).is_on = true := by
  have h := (C10_state_mapping initialStatus sampleFrame).2 (by decide)
    (by decide)
  exact ⟨(h.2 (by decide)).1, (h.2 (by decide)).2.2⟩

/-! ### `set_temperature` encoding (`client.py` lines 257-279)

`temp = max(MIN_TEMP, min(MAX_TEMP, temp))`, inner bytes, checksum
`sum(inner) & 0xFF`, command `[0x07] + inner + [checksum]`; `_send_command`
prepends `PROTOCOL_HEADER`. -/

/-- `max(MIN_TEMP, min(MAX_TEMP, temp))`. -/
def clampTemp (temp : Int) : Int := max MIN_TEMP (min MAX_TEMP temp)

/-- The command handed to `_send_command` by `set_temperature`. -/
def set_temperature_command (temp : Int) : List Nat :=
  let t := (clampTemp temp).toNat
  let inner := CMD_TEMP_INNER ++ [t, 0x00]
  let checksum := inner.sum % 256
  0x07 :: (inner ++ [checksum])

/-- The frame written to the GATT characteristic for a set-temperature. -/
def set_temperature_frame (temp : Int) : List Nat :=
  PROTOCOL_HEADER ++ set_temperature_command temp

lemma clampTemp_bounds (temp : Int) :
    8 ≤ clampTemp temp ∧ clampTemp temp ≤ 36 := by
  unfold clampTemp MIN_TEMP MAX_TEMP
  exact ⟨le_max_left _ _, max_le (by norm_num) (min_le_left _ _)⟩

/-- C1: the set-temperature frame is the 7-byte outer header, the length
byte `0x07`, the six inner bytes `{0x06,0x00,0x00,0x02,t,0x00}` with `t` the
temperature clamped into `[8,36]`, then the sum of the six inner bytes mod
256; `set_temperature(50)` sends 36 and `set_temperature(0)` sends 8. -/
theorem C1_set_temperature_frame (temp : Int) :
    set_temperature_frame temp =
      [0x00, 0x02, 0x00, 0x01, 0x00, 0x01, 0x00] ++ [0x07] ++
      [0x06, 0x00, 0x00, 0x02, (clampTemp temp).toNat, 0x00] ++
      [(0x06 + 0x00 + 0x00 + 0x02 + (clampTemp temp).toNat + 0x00) % 256] ∧
    8 ≤ clampTemp temp ∧ clampTemp temp ≤ 36 ∧
    (clampTemp 50).toNat = 36 ∧ (clampTemp 0).toNat = 8 := by
  refine ⟨?_, (clampTemp_bounds temp).1, (clampTemp_bounds temp).2,
    by decide, by decide⟩
  simp only [set_temperature_frame, set_temperature_command, PROTOCOL_HEADER,
    CMD_TEMP_INNER]
  simp [List.sum_cons, List.sum_nil]
  omega

/-! ### Reachable heater statuses (C5)

Every mutation of `self._status` in `client.py`: the decoded-frame merge in
`_parse_status`, the `connected` flag writes in `connect` / `disconnect` /
`_on_disconnect`, and the optimistic `target_temp` write after a successful
set-temperature send (which stores the already-clamped value). -/

inductive Reachable : HeaterStatus → Prop
  | base : Reachable initialStatus
  | frame (st : HeaterStatus) (data : List Nat) :
      Reachable st → Reachable (parse_status st data)
  | optimistic (st : HeaterStatus) (temp : Int) :
      Reachable st → Reachable { st with target_temp := clampTemp temp }
  | connFlag (st : HeaterStatus) (b : Bool) :
      Reachable st → Reachable { st with connected := b }

lemma parse_status_target (st : HeaterStatus) (data : List Nat) :
    (parse_status st data).target_temp = st.target_temp ∨
    ∃ t : Nat, (parse_status st data).target_temp = (t : Int) ∧
      8 ≤ t ∧ t ≤ 36 := by
  unfold parse_status
  split_ifs with h1 h2
  · exact Or.inl rfl
  · rw [upd_ambient_target, upd_body_target, upd_state_target]
    rcases upd_target_target st data with h | ⟨he, h8, h36⟩
    · exact Or.inl h
    · exact Or.inr ⟨data.getD 10 0, he, h8, h36⟩
  · exact Or.inl rfl

/-- C5: in every reachable `HeaterStatus` the invariant
`8 ≤ target_temp ≤ 36` holds — the default is 16, a decoded frame overwrites
`target_temp` only with a byte in `[8,36]`, and the optimistic update stores
only the clamped value. -/
theorem C5_target_temp_invariant (st : HeaterStatus) (h : Reachable st) :
    8 ≤ st.target_temp ∧ st.target_temp ≤ 36 := by
  induction h with
  | base => exact ⟨by decide, by decide⟩
  | frame st data _ ih =>
    rcases parse_status_target st data with he | ⟨t, he, h8, h36⟩
    · rw [he]; exact ih
    · rw [he]
      exact ⟨by exact_mod_cast h8, by exact_mod_cast h36⟩
  | optimistic st temp _ ih => exact clampTemp_bounds temp
  | connFlag st b _ ih => exact ih

theorem C5_target_temp_invariant_witness :
    8 ≤ initialStatus.target_temp ∧ initialStatus.target_temp ≤ 36 :=
  C5_target_temp_invariant initialStatus Reachable.base

/-! ### `_send_command` retry loop (`client.py` lines 215-245)

`for attempt in range(RETRY_COUNT)`: if not connected, `connect()`; on
connect failure `continue` (no sleep); otherwise write
`PROTOCOL_HEADER + command`; on write success `return True`; on `BleakError`
sleep `RETRY_DELAY` and continue; after the loop `return False`.  Transport
outcomes are oracles indexed by attempt number; `staysConn i` says whether
the link is still up at the next attempt after a failed write on attempt
`i`.  Every `connect` call, GATT write and sleep is recorded in a trace;
totality models "never raises to the caller". -/

inductive SendEvent where
  | connectAttempt (ok : Bool)
  | writeAttempt (frame : List Nat) (ok : Bool)
  | sleepRetryDelay
deriving DecidableEq, Repr

/-- One pass of the `for attempt in range(...)` loop body, recursing on the
remaining attempt budget. -/
def send_attempts (frame : List Nat) (connectOk writeOk staysConn : Nat → Bool) :
    Nat → Nat → Bool → Bool × List SendEvent
  | _, 0, _ => (false, [])
  | i, r + 1, conn =>
    if conn then
      if writeOk i then (true, [SendEvent.writeAttempt frame true])
      else
        ((send_attempts frame connectOk writeOk staysConn (i + 1) r
            (staysConn i)).1,
         SendEvent.writeAttempt frame false :: SendEvent.sleepRetryDelay ::
           (send_attempts frame connectOk writeOk staysConn (i + 1) r
             (staysConn i)).2)
    else if connectOk i then
      if writeOk i then
        (true, [SendEvent.connectAttempt true, SendEvent.writeAttempt frame true])
      else
        ((send_attempts frame connectOk writeOk staysConn (i + 1) r
            (staysConn i)).1,
         SendEvent.connectAttempt true ::
           SendEvent.writeAttempt frame false :: SendEvent.sleepRetryDelay ::
           (send_attempts frame connectOk writeOk staysConn (i + 1) r
             (staysConn i)).2)
    else
      ((send_attempts frame connectOk writeOk staysConn (i + 1) r false).1,
       SendEvent.connectAttempt false ::
         (send_attempts frame connectOk writeOk staysConn (i + 1) r false).2)

/-- `_send_command(command)`: up to `RETRY_COUNT` attempts at writing
`PROTOCOL_HEADER + command`, starting from connection state `conn0`. -/
def send_command (command : List Nat)
    (connectOk writeOk staysConn : Nat → Bool) (conn0 : Bool) :
    Bool × List SendEvent :=
  send_attempts (PROTOCOL_HEADER ++ command) connectOk writeOk staysConn 0
    RETRY_COUNT conn0

/-- Number of GATT write attempts in a trace. -/
def countWrites : List SendEvent → Nat
  | [] => 0
  | SendEvent.writeAttempt _ _ :: rest => countWrites rest + 1
  | _ :: rest => countWrites rest

lemma send_attempts_writes_le (frame : List Nat)
    (connectOk writeOk staysConn : Nat → Bool) :
    ∀ r i conn,
      countWrites (send_attempts frame connectOk writeOk staysConn i r conn).2 ≤ r := by
  intro r
  induction r with
  | zero => intro i conn; simp [send_attempts, countWrites]
  | succ r ih =>
    intro i conn
    simp only [send_attempts]
    split_ifs
    · simp [countWrites]
    · have h := ih (i + 1) (staysConn i)
      simpa [countWrites] using Nat.succ_le_succ h
    · simp [countWrites]
    · have h := ih (i + 1) (staysConn i)
      simpa [countWrites] using Nat.succ_le_succ h
    · have h := ih (i + 1) false
      simpa [countWrites] using le_trans h (Nat.le_succ r)

/-- C2: the retry loop of `_send_command`: a failed connect moves on to the
next attempt without aborting and without sleeping; a successful write
returns success immediately; a failed write sleeps `RETRY_DELAY` and
retries; three consecutive write failures give failure after exactly
`RETRY_COUNT = 3` write attempts each followed by a `RETRY_DELAY` sleep;
failure then success on the 2nd attempt gives success; three failed
connects exhaust the budget and give failure; and no run ever makes more
than `RETRY_COUNT` write attempts.  Totality of `send_command` models that
it never raises to the caller. -/
theorem C2_send_retry (command : List Nat) :
    (∀ connectOk : Nat → Bool,
      send_command command connectOk (fun _ => false) (fun _ => true) true =
        (false,
         [SendEvent.writeAttempt (PROTOCOL_HEADER ++ command) false,
          SendEvent.sleepRetryDelay,
          SendEvent.writeAttempt (PROTOCOL_HEADER ++ command) false,
          SendEvent.sleepRetryDelay,
          SendEvent.writeAttempt (PROTOCOL_HEADER ++ command) false,
          SendEvent.sleepRetryDelay])) ∧
    (∀ connectOk : Nat → Bool,
      send_command command connectOk (fun i => i != 0) (fun _ => true) true =
        (true,
         [SendEvent.writeAttempt (PROTOCOL_HEADER ++ command) false,
          SendEvent.sleepRetryDelay,
          SendEvent.writeAttempt (PROTOCOL_HEADER ++ command) true])) ∧
    (send_command command (fun i => i != 0) (fun _ => true) (fun _ => true)
        false =
      (true,
       [SendEvent.connectAttempt false, SendEvent.connectAttempt true,
        SendEvent.writeAttempt (PROTOCOL_HEADER ++ command) true])) ∧
    (∀ writeOk staysConn : Nat → Bool,
      send_command command (fun _ => false) writeOk staysConn false =
        (false,
         [SendEvent.connectAttempt false, SendEvent.connectAttempt false,
          SendEvent.connectAttempt false])) ∧
    (∀ connectOk writeOk staysConn : Nat → Bool, ∀ conn0 : Bool,
      countWrites
        (send_command command connectOk writeOk staysConn conn0).2 ≤
        RETRY_COUNT) := by
  refine ⟨?_, ?_, ?_, ?_, ?_⟩
  · intro connectOk
    simp [send_command, RETRY_COUNT, send_attempts]
  · intro connectOk
    simp [send_command, RETRY_COUNT, send_attempts]
  · simp [send_command, RETRY_COUNT, send_attempts]
  · intro writeOk staysConn
    simp [send_command, RETRY_COUNT, send_attempts]
  · intro connectOk writeOk staysConn conn0
    exact send_attempts_writes_le _ _ _ _ _ _ _

/-! ### `set_temperature` status effect (`client.py` lines 257-279, C7)

`success = await self._send_command(command)`; only on success is
`self._status.target_temp = temp` (the clamped value) executed. -/

/-- Result flag and resulting stored status of `set_temperature(temp)`,
with the transport outcomes of the underlying `_send_command` as oracles. -/
def set_temperature (st : HeaterStatus) (temp : Int)
    (connectOk writeOk staysConn : Nat → Bool) (conn0 : Bool) :
    Bool × HeaterStatus :=
  let success := (send_command (set_temperature_command temp) connectOk
    writeOk staysConn conn0).1
  if success then (success, { st with target_temp := clampTemp temp })
  else (success, st)

/-- C7: `set_temperature` returns exactly the send outcome; on success the
stored `target_temp` becomes the clamped temperature (optimistic update,
other fields untouched), and on failure the stored status is completely
unchanged. -/
theorem C7_optimistic_update (st : HeaterStatus) (temp : Int)
    (connectOk writeOk staysConn : Nat → Bool) (conn0 : Bool) :
    set_temperature st temp connectOk writeOk staysConn conn0 =
      ((send_command (set_temperature_command temp) connectOk writeOk
          staysConn conn0).1,
       if (send_command (set_temperature_command temp) connectOk writeOk
          staysConn conn0).1
       then { st with target_temp := clampTemp temp }
       else st) := by
  simp only [set_temperature]
  split_ifs <;> rfl

/-! ### Power commands (C6) -/

/-- The frame `turn_on()` hands to the transport:
`PROTOCOL_HEADER + CMD_POWER_ON`. -/
def turn_on_frame : List Nat := PROTOCOL_HEADER ++ CMD_POWER_ON

/-- The frame `turn_off()` hands to the transport:
`PROTOCOL_HEADER + CMD_POWER_OFF`. -/
def turn_off_frame : List Nat := PROTOCOL_HEADER ++ CMD_POWER_OFF

/-- `turn_on()` = `_send_command(CMD_POWER_ON)`. -/
def turn_on (connectOk writeOk staysConn : Nat → Bool) (conn0 : Bool) :
    Bool × List SendEvent :=
  send_command CMD_POWER_ON connectOk writeOk staysConn conn0

/-- `turn_off()` = `_send_command(CMD_POWER_OFF)`. -/
def turn_off (connectOk writeOk staysConn : Nat → Bool) (conn0 : Bool) :
    Bool × List SendEvent :=
  send_command CMD_POWER_OFF connectOk writeOk staysConn conn0

/-- C6: `turn_on()` sends exactly header + payload
`0e 04 00 00 09 00 00 00 00 00 00 00 00 02 0f`, `turn_off()` exactly header
+ `0e 04 00 00 09 00 00 00 00 00 00 00 00 01 0e`; the two 15-byte payloads
agree on their first 13 bytes and differ only in the action byte (index 13:
`0x02` vs `0x01`) and the final checksum byte (index 14: `0x0f` vs `0x0e`),
both baked-in literals in `const.py`. -/
theorem C6_power_frames :
    turn_on_frame =
      [0x00, 0x02, 0x00, 0x01, 0x00, 0x01, 0x00,
       0x0e, 0x04, 0x00, 0x00, 0x09, 0x00, 0x00, 0x00, 0x00, 0x00, 0x00,
       0x00, 0x00, 0x02, 0x0f] ∧
    turn_off_frame =
      [0x00, 0x02, 0x00, 0x01, 0x00, 0x01, 0x00,
       0x0e, 0x04, 0x00, 0x00, 0x09, 0x00, 0x00, 0x00, 0x00, 0x00, 0x00,
       0x00, 0x00, 0x01, 0x0e] ∧
    CMD_POWER_ON.length = 15 ∧ CMD_POWER_OFF.length = 15 ∧
    CMD_POWER_ON.take 13 = CMD_POWER_OFF.take 13 ∧
    CMD_POWER_ON.getD 13 0 = 0x02 ∧ CMD_POWER_OFF.getD 13 0 = 0x01 ∧
    CMD_POWER_ON.getD 14 0 = 0x0f ∧ CMD_POWER_OFF.getD 14 0 = 0x0e ∧
    (∀ writeOk staysConn : Nat → Bool,
      turn_on (fun _ => true) writeOk staysConn true =
        ((send_command CMD_POWER_ON (fun _ => true) writeOk staysConn
            true).1,
         (send_command CMD_POWER_ON (fun _ => true) writeOk staysConn
            true).2)) ∧
    (∀ staysConn : Nat → Bool,
      (turn_on (fun _ => true) (fun _ => true) staysConn true).2 =
        [SendEvent.writeAttempt turn_on_frame true]) ∧
    (∀ staysConn : Nat → Bool,
      (turn_off (fun _ => true) (fun _ => true) staysConn true).2 =
        [SendEvent.writeAttempt turn_off_frame true]) := by
  refine ⟨by decide, by decide, by decide, by decide, by decide, by decide,
    by decide, by decide, by decide, ?_, ?_, ?_⟩
  · intro writeOk staysConn; rfl
  · intro staysConn
    simp [turn_on, turn_on_frame, send_command, RETRY_COUNT, send_attempts]
  · intro staysConn
    simp [turn_off, turn_off_frame, send_command, RETRY_COUNT, send_attempts]

/-! ### Connection lifecycle (`client.py` lines 84-132, C8)

`self._client : BleakClient | None` is modelled as `Option Bool`: `none`
while no handle exists, `some b` when a handle exists with `is_connected =
b`.  `is_connected` is `self._client is not None and
self._client.is_connected`.  `connect()` returns `True` at once when already
connected; otherwise it constructs a handle and runs the transport sequence
(connect, subscribe, init write, settle sleep), collapsed into one oracle
`transportOk`; any `BleakError` leaves the fresh handle down, sets
`self._status.connected = False` and returns `False`.  `disconnect()` does
nothing when no handle exists; otherwise the `try/except BleakError/finally`
drops the handle and clears `connected` whether or not the transport
teardown succeeded (`teardownOk`), and never raises. -/

structure ClientState where
  client : Option Bool
  status : HeaterStatus
deriving DecidableEq, Repr

/-- `self._client is not None and self._client.is_connected`. -/
def is_connected : ClientState → Bool
  | ⟨some true, _⟩ => true
  | _ => false

/-- `connect()` under transport outcome `transportOk`. -/
def connect (transportOk : Bool) (st : ClientState) : Bool × ClientState :=
  if is_connected st then (true, st)
  else if transportOk then
    (true, ⟨some true, { st.status with connected := true }⟩)
  else
    (false, ⟨some false, { st.status with connected := false }⟩)

/-- `disconnect()`: the `finally` block makes the result independent of the
teardown outcome `_teardownOk`. -/
def disconnect (_teardownOk : Bool) (st : ClientState) : ClientState :=
  match st.client with
  | none => st
  | some _ => ⟨none, { st.status with connected := false }⟩

/-- C8: `connect()` on an already-connected session returns success with the
state (and transport handle) untouched; on transport failure it returns
failure with `connected = false` and never raises (totality).
`disconnect()` is idempotent, a no-op on a session that never had a
transport handle, clears `connected` (given the evident invariant that a
session without a handle is not marked connected), and its outcome is
independent of whether the transport teardown itself failed. -/
theorem C8_connection_lifecycle :
    (∀ (st : ClientState) (tOk : Bool), is_connected st = true →
      connect tOk st = (true, st)) ∧
    (∀ st : ClientState, is_connected st = false →
      (connect false st).1 = false ∧
      (connect false st).2.status.connected = false) ∧
    (∀ (st : ClientState) (b b' : Bool),
      disconnect b' (disconnect b st) = disconnect b st) ∧
    (∀ (st : ClientState) (b : Bool), st.client = none →
      disconnect b st = st) ∧
    (∀ (st : ClientState) (b : Bool),
      (st.client = none → st.status.connected = false) →
      (disconnect b st).status.connected = false) ∧
    (∀ (st : ClientState) (b b' : Bool),
      disconnect b st = disconnect b' st) := by
  refine ⟨?_, ?_, ?_, ?_, ?_, ?_⟩
  · intro st tOk h
    simp [connect, h]
  · intro st h
    simp [connect, h]
  · intro st b b'
    rcases st with ⟨c, s⟩
    cases c <;> simp [disconnect]
  · intro st b h
    rcases st with ⟨c, s⟩
    cases c <;> simp_all [disconnect]
  · intro st b h
    rcases st with ⟨c, s⟩
    cases c
    · simpa [disconnect] using h rfl
    · simp [disconnect]
  · intro st b b'
    rfl

theorem C8_connection_lifecycle_witness :
    connect true ⟨some true, initialStatus⟩ =
      (true, ⟨some true, initialStatus⟩) ∧
    disconnect true ⟨none, initialStatus⟩ = ⟨none, initialStatus⟩ :=
  ⟨C8_connection_lifecycle.1 ⟨some true, initialStatus⟩ true rfl,
   C8_connection_lifecycle.2.2.2.1 ⟨none, initialStatus⟩ true rfl⟩

/-! ### `request_status` (`client.py` lines 281-297, C9) -/

/-- Modelled from the spec: `CMD_STATUS_QUERY` is imported by `client.py`
but its literal value is missing from `const.py` in this tree; the spec
(§4.1) treats `encode_status_query()` as a fixed opaque literal frame.  The
query frame is therefore a parameter `query`, so the results below hold for
whatever fixed literal the constant carries.  The rest is `request_status`
from the source: return `False` when not connected, otherwise write the
query frame to the write characteristic and return `True`, catching
`BleakError` into `False`.  The second component is the frame handed to the
transport (`none` when no write was attempted). -/
def request_status (query : List Nat) (st : ClientState) (writeOk : Bool) :
    Bool × Option (List Nat) :=
  if is_connected st = false then (false, none)
  else if writeOk then (true, some query) else (false, some query)

/-- C9: when connected, `request_status()` writes exactly the fixed
status-query frame and returns success; when not connected it returns
failure without attempting a write; on a transport write failure it returns
failure; it never raises (totality). -/
theorem C9_request_status (query : List Nat) (st : ClientState) :
    (is_connected st = false →
      ∀ w : Bool, request_status query st w = (false, none)) ∧
    (is_connected st = true →
      request_status query st true = (true, some query) ∧
      request_status query st false = (false, some query)) := by
  constructor
  · intro h w
    simp [request_status, h]
  · intro h
    constructor <;> simp [request_status, h]

theorem C9_request_status_witness :
    request_status [0x00] ⟨some true, initialStatus⟩ true =
      (true, some [0x00]) ∧
    request_status [0x00] ⟨none, initialStatus⟩ true = (false, none) :=
  ⟨((C9_request_status [0x00] ⟨some true, initialStatus⟩).2 rfl).1,
   (C9_request_status [0x00] ⟨none, initialStatus⟩).1 rfl true⟩

end Hcalory
